import Mathlib

/-!
Shallow embedding of the view-animation engine of gfaestus
(src/src/app/mainview.rs).  The `f32` scalars of the source are modelled
as real numbers; `f32::powf` becomes `Real.rpow` and `f32::log2` becomes
`Real.logb 2`.
-/

namespace Gfaestus

/-- Modelled from the spec: the 2D point type of `crate::geometry`, whose
source file is not under src/.  Per the spec, a point is a pair of `f32`
coordinates with componentwise arithmetic. -/
@[ext]
structure Point where
  x : ℝ
  y : ℝ

instance : Add Point := ⟨fun a b => ⟨a.x + b.x, a.y + b.y⟩⟩

instance : Sub Point := ⟨fun a b => ⟨a.x - b.x, a.y - b.y⟩⟩

@[simp]
theorem Point.add_def (a b : Point) : a + b = ⟨a.x + b.x, a.y + b.y⟩ := rfl

@[simp]
theorem Point.sub_def (a b : Point) : a - b = ⟨a.x - b.x, a.y - b.y⟩ := rfl

/-- Modelled from the spec: scalar multiplication `point * k` of
`crate::geometry` (not under src/), componentwise. -/
def Point.smul (p : Point) (k : ℝ) : Point := ⟨p.x * k, p.y * k⟩

@[simp]
theorem Point.smul_def (p : Point) (k : ℝ) : p.smul k = ⟨p.x * k, p.y * k⟩ := rfl

/-- Modelled from the spec: the camera transform of `crate::view` (not
under src/): a center point plus a uniform scale, default
`center=(0,0), scale=1.0`. -/
@[ext]
structure View where
  center : Point
  scale : ℝ

/-- Modelled from the spec: `View::default()`. -/
def View.default : View := ⟨⟨0, 0⟩, 1⟩

/-- `AnimSettings` from src/src/app/mainview.rs. -/
structure AnimSettings where
  min_view_scale : Option ℝ
  max_view_scale : Option ℝ
  max_speed : Option ℝ
  key_pan_speed : ℝ
  mouse_pan_mult : ℝ
  wheel_zoom_base_speed : ℝ

/-- `AnimSettings::default()` from src/src/app/mainview.rs. -/
def AnimSettings.defaults : AnimSettings :=
  { min_view_scale := some 0.5
    max_view_scale := none
    max_speed := some 600.0
    key_pan_speed := 400.0
    mouse_pan_mult := 1.0
    wheel_zoom_base_speed := 0.45 }

/-- `AnimHandler` from src/src/app/mainview.rs. -/
structure AnimHandler where
  mouse_pan_screen_origin : Option Point
  view_anim_target : Option View
  view_pan_const : Point
  view_pan_delta : Point
  view_scale_delta : ℝ

/-- `AnimHandler::default()` (derived `Default`): all fields zero/`None`. -/
def AnimHandler.defaults : AnimHandler :=
  { mouse_pan_screen_origin := none
    view_anim_target := none
    view_pan_const := ⟨0, 0⟩
    view_pan_delta := ⟨0, 0⟩
    view_scale_delta := 0 }

/-- The friction coefficient computed inside `AnimHandler::update`
(src/src/app/mainview.rs lines 579-591).  The source computes the same
expression twice, as `zoom_friction` and `pan_friction`:
`if dt >= 1.0 { 0.0 } else { 1.0 - 10f32.powf(dt - 1.0) }`. -/
noncomputable def frictionCoeff (dt : ℝ) : ℝ :=
  if 1 ≤ dt then 0 else 1 - (10 : ℝ) ^ (dt - 1)

/-- `AnimHandler::update` (src/src/app/mainview.rs lines 550-598).
Returns the mutated handler state together with the new `View`. -/
noncomputable def AnimHandler.update (s : AnimHandler) (settings : AnimSettings)
    (view : View) (mouse_pos : Option Point) (dt : ℝ) : AnimHandler × View :=
  let scale1 := view.scale + view.scale * dt * s.view_scale_delta
  let scale2 := match settings.min_view_scale with
    | some min_scale => max scale1 min_scale
    | none => scale1
  let scale3 := match settings.max_view_scale with
    | some max_scale => min scale2 max_scale
    | none => scale2
  let dxy := match s.mouse_pan_screen_origin, mouse_pos with
    | some origin, some mp => ((mp - origin).smul settings.mouse_pan_mult).smul dt
    | _, _ => (s.view_pan_const + s.view_pan_delta).smul dt
  let center := view.center + dxy.smul scale3
  let pan_friction := frictionCoeff dt
  let zoom_friction := frictionCoeff dt
  let pan1 := s.view_pan_delta.smul pan_friction
  let sd1 := s.view_scale_delta * zoom_friction
  let sd2 := if |sd1| < 0.00001 then 0 else sd1
  ({ s with view_pan_delta := pan1, view_scale_delta := sd2 },
   { center := center, scale := scale3 })

/-- `AnimHandler::start_mouse_pan` (src/src/app/mainview.rs). -/
def AnimHandler.start_mouse_pan (s : AnimHandler) (origin : Point) : AnimHandler :=
  { s with mouse_pan_screen_origin := some origin }

/-- `AnimHandler::end_mouse_pan` (src/src/app/mainview.rs). -/
def AnimHandler.end_mouse_pan (s : AnimHandler) : AnimHandler :=
  { s with mouse_pan_screen_origin := none }

/-- `AnimHandler::pan_const` (src/src/app/mainview.rs lines 608-626):
an axis passed `Some(0.0)` first copies the old constant speed of that
axis into `view_pan_delta`; then each provided axis overwrites
`view_pan_const`, `None` keeping the old value. -/
noncomputable def AnimHandler.pan_const (s : AnimHandler) (dx dy : Option ℝ) : AnimHandler :=
  let pd1 : Point :=
    if dx = some 0 then { s.view_pan_delta with x := s.view_pan_const.x }
    else s.view_pan_delta
  let pd2 : Point :=
    if dy = some 0 then { pd1 with y := s.view_pan_const.y }
    else pd1
  { s with
    view_pan_delta := pd2
    view_pan_const := ⟨dx.getD s.view_pan_const.x, dy.getD s.view_pan_const.y⟩ }

/-- `AnimHandler::pan_delta` (src/src/app/mainview.rs lines 628-636):
adds the impulse, then clamps each component to
`[-max_speed, max_speed]` when `max_speed` is configured. -/
def AnimHandler.pan_delta (s : AnimHandler) (settings : AnimSettings)
    (dxy : Point) : AnimHandler :=
  let d1 := s.view_pan_delta + dxy
  let d2 := match settings.max_speed with
    | some ms => Point.mk (min (max d1.x (-ms)) ms) (min (max d1.y (-ms)) ms)
    | none => d1
  { s with view_pan_delta := d2 }

/-- `AnimHandler::zoom_delta` (src/src/app/mainview.rs lines 638-642):
`delta_mult = current_scale.log2().max(1.0)`, then
`view_scale_delta += dz * delta_mult`. -/
noncomputable def AnimHandler.zoom_delta (s : AnimHandler)
    (current_scale dz : ℝ) : AnimHandler :=
  let delta_mult := max (Real.logb 2 current_scale) 1
  { s with view_scale_delta := s.view_scale_delta + dz * delta_mult }

/-- The state reachable through `MainView` and its `AnimHandlerThread`
(src/src/app/mainview.rs): the shared `view` cell, the `initial_view`
cell, the shared mouse position, the settings cell, and the
`AnimHandler` state owned by the engine thread.  Commands sent through
the message channel are modelled as applied when the engine drains
them. -/
structure MainViewModel where
  view : View
  initial_view : View
  mouse_pos : Option Point
  settings : AnimSettings
  anim : AnimHandler

/-- `MainView::set_view_center` (src/src/app/mainview.rs lines 287-291):
loads the view, replaces its center, and stores it back. -/
def MainViewModel.set_view_center (m : MainViewModel) (center : Point) : MainViewModel :=
  { m with view := { m.view with center := center } }

/-- `MainView::set_view_scale` (src/src/app/mainview.rs lines 293-297). -/
def MainViewModel.set_view_scale (m : MainViewModel) (scale : ℝ) : MainViewModel :=
  { m with view := { m.view with scale := scale } }

/-- `MainView::reset_view` (src/src/app/mainview.rs lines 118-121):
stores the initial view into the live view cell. -/
def MainViewModel.reset_view (m : MainViewModel) : MainViewModel :=
  { m with view := m.initial_view }

/-- `MainView::set_initial_view` (src/src/app/mainview.rs lines 109-116):
each provided field overwrites the stored initial view, an omitted field
keeps its previous value. -/
def MainViewModel.set_initial_view (m : MainViewModel)
    (center : Option Point) (scale : Option ℝ) : MainViewModel :=
  { m with
    initial_view :=
      { center := center.getD m.initial_view.center
        scale := scale.getD m.initial_view.scale } }

/-- `MainView::set_mouse_pos` (src/src/app/mainview.rs). -/
def MainViewModel.set_mouse_pos (m : MainViewModel) (pos : Option Point) : MainViewModel :=
  { m with mouse_pos := pos }

/-- `MainView::set_mouse_pan`, as handled by the engine loop on
`AnimMsg::SetMousePan` (src/src/app/mainview.rs). -/
def MainViewModel.set_mouse_pan (m : MainViewModel) (origin : Option Point) : MainViewModel :=
  { m with
    anim := match origin with
      | some o => m.anim.start_mouse_pan o
      | none => m.anim.end_mouse_pan }

/-- `MainView::pan_const` via `AnimHandlerThread::pan_const`
(src/src/app/mainview.rs lines 442-447): each provided axis is scaled by
`key_pan_speed` before the `PanConst` message reaches
`AnimHandler::pan_const`. -/
noncomputable def MainViewModel.pan_const (m : MainViewModel) (dx dy : Option ℝ) : MainViewModel :=
  let speed := m.settings.key_pan_speed
  { m with
    anim := m.anim.pan_const (dx.map (fun x => x * speed)) (dy.map (fun x => x * speed)) }

/-- `MainView::pan_delta`, as handled by the engine loop on
`AnimMsg::PanDelta` (src/src/app/mainview.rs). -/
def MainViewModel.pan_delta (m : MainViewModel) (dxy : Point) : MainViewModel :=
  { m with anim := m.anim.pan_delta m.settings dxy }

/-- `MainView::zoom_delta`, as handled by the engine loop on
`AnimMsg::ZoomDelta` (src/src/app/mainview.rs): the loop loads the
current view and passes its scale to `AnimHandler::zoom_delta`. -/
noncomputable def MainViewModel.zoom_delta (m : MainViewModel) (dz : ℝ) : MainViewModel :=
  { m with anim := m.anim.zoom_delta m.view.scale dz }

/-- `AnimHandler::update_cell` (src/src/app/mainview.rs lines 537-548):
one engine tick — loads the view, runs `AnimHandler::update`, and
stores the result. -/
noncomputable def MainViewModel.update_cell (m : MainViewModel) (dt : ℝ) : MainViewModel :=
  let p := m.anim.update m.settings m.view m.mouse_pos dt
  { m with anim := p.1, view := p.2 }

/-- Modelled from the spec: the `GotoAnimation` sub-state of §3.  The
field `AnimHandler.view_anim_target` is declared in src/ but no code
implementing the goto transition exists under src/. -/
structure GotoAnimation where
  start_view : View
  target_view : View
  start_time : ℝ
  duration : ℝ

/-- Modelled from the spec: linear interpolation between two views, the
minimum acceptable easing of §4.4 step 4. -/
def View.lerp (a b : View) (t : ℝ) : View :=
  { center := ⟨a.center.x + (b.center.x - a.center.x) * t,
               a.center.y + (b.center.y - a.center.y) * t⟩
    scale := a.scale + (b.scale - a.scale) * t }

/-- Modelled from the spec (§4.4 step 4): one engine tick while a
GotoAnimation is active.  While `elapsed < duration` the view is
interpolated between `start_view` and `target_view`; once
`elapsed >= duration` the target view is published exactly and the
sub-state is cleared. -/
noncomputable def gotoTick (g : GotoAnimation) (now : ℝ) : View × Option GotoAnimation :=
  let elapsed := now - g.start_time
  if g.duration ≤ elapsed then (g.target_view, none)
  else (View.lerp g.start_view g.target_view (elapsed / g.duration), some g)

/-- Iterated engine ticks with no commands arriving in between: tick `n`
runs `AnimHandler::update` with elapsed time `dts n` and mouse position
`mps n`. -/
noncomputable def runTicks (settings : AnimSettings) (mps : ℕ → Option Point)
    (dts : ℕ → ℝ) (init : AnimHandler × View) : ℕ → AnimHandler × View
  | 0 => init
  | n + 1 =>
    let p := runTicks settings mps dts init n
    p.1.update settings p.2 (mps n) (dts n)

/-- Animation settings with no scale bounds and no pan-speed clamp, as
in the concrete scenarios of the spec. -/
def noBounds : AnimSettings :=
  { min_view_scale := none
    max_view_scale := none
    max_speed := none
    key_pan_speed := 400.0
    mouse_pan_mult := 1.0
    wheel_zoom_base_speed := 0.45 }

/-! ### Helper lemmas about the friction coefficient -/

theorem frictionCoeff_nonneg {dt : ℝ} (h : 0 < dt) : 0 ≤ frictionCoeff dt := by
  unfold frictionCoeff
  split_ifs with h1
  · exact le_refl 0
  · have hlt : (10 : ℝ) ^ (dt - 1) < 1 :=
      Real.rpow_lt_one_of_one_lt_of_neg (by norm_num) (by linarith [not_le.mp h1])
    linarith

theorem frictionCoeff_lt {dt : ℝ} (h : 0 < dt) : frictionCoeff dt < 9 / 10 := by
  unfold frictionCoeff
  split_ifs with h1
  · norm_num
  · have hbase : (1 : ℝ) < 10 := by norm_num
    have hmono : (10 : ℝ) ^ (-1 : ℝ) < (10 : ℝ) ^ (dt - 1) :=
      (Real.rpow_lt_rpow_left_iff hbase).mpr (by linarith)
    have hval : (10 : ℝ) ^ (-1 : ℝ) = 1 / 10 := by
      rw [Real.rpow_neg_one]
      norm_num
    rw [hval] at hmono
    linarith

theorem frictionCoeff_lt_one {dt : ℝ} (h : 0 < dt) : frictionCoeff dt < 1 :=
  lt_trans (frictionCoeff_lt h) (by norm_num)

/-- The handler state returned by `AnimHandler::update` multiplies
`view_pan_delta` by the friction coefficient. -/
theorem update_pan_delta (s : AnimHandler) (settings : AnimSettings)
    (view : View) (mp : Option Point) (dt : ℝ) :
    ((s.update settings view mp dt).1).view_pan_delta
      = s.view_pan_delta.smul (frictionCoeff dt) := rfl

/-- The handler state returned by `AnimHandler::update` multiplies
`view_scale_delta` by the friction coefficient and snaps it to zero
below the `0.00001` threshold. -/
theorem update_scale_delta (s : AnimHandler) (settings : AnimSettings)
    (view : View) (mp : Option Point) (dt : ℝ) :
    ((s.update settings view mp dt).1).view_scale_delta
      = if |s.view_scale_delta * frictionCoeff dt| < 0.00001 then 0
        else s.view_scale_delta * frictionCoeff dt := rfl

/-! ### C1 -/

/-- C1: whenever both scale bounds are configured with
`min_scale <= max_scale` and `dt >= 0`, the view published by
`AnimHandler::update` has its scale inside `[min_scale, max_scale]`;
the scale is obtained by first applying
`scale += scale * dt * zoom_velocity` and then clamping, and it does not
depend on the pan step (mouse position, drag origin, pan velocities or
the center). -/
theorem C1_scale_clamped (settings : AnimSettings) (s : AnimHandler)
    (view : View) (mp : Option Point) (dt mn mx : ℝ)
    (hmin : settings.min_view_scale = some mn)
    (hmax : settings.max_view_scale = some mx)
    (hmm : mn ≤ mx) (hdt : 0 ≤ dt) :
    mn ≤ ((s.update settings view mp dt).2).scale ∧
    ((s.update settings view mp dt).2).scale ≤ mx ∧
    ((s.update settings view mp dt).2).scale
      = min (max (view.scale + view.scale * dt * s.view_scale_delta) mn) mx := by
  have hscale : ((s.update settings view mp dt).2).scale
      = min (max (view.scale + view.scale * dt * s.view_scale_delta) mn) mx := by
    simp only [AnimHandler.update, hmin, hmax]
  refine ⟨?_, ?_, hscale⟩
  · rw [hscale]
    exact le_min (le_max_right _ _) hmm
  · rw [hscale]
    exact min_le_right _ _

/-- Witness for C1 at concrete bounds `[1, 2]`, `dt = 0`. -/
theorem C1_scale_clamped_witness :
    (1 : ℝ) ≤ ((AnimHandler.defaults.update
        ⟨some 1, some 2, none, 400, 1, 0.45⟩ View.default none 0).2).scale ∧
    ((AnimHandler.defaults.update
        ⟨some 1, some 2, none, 400, 1, 0.45⟩ View.default none 0).2).scale ≤ 2 ∧
    ((AnimHandler.defaults.update
        ⟨some 1, some 2, none, 400, 1, 0.45⟩ View.default none 0).2).scale
      = min (max (View.default.scale
          + View.default.scale * 0 * AnimHandler.defaults.view_scale_delta) 1) 2 :=
  C1_scale_clamped ⟨some 1, some 2, none, 400, 1, 0.45⟩ AnimHandler.defaults
    View.default none 0 1 2 rfl rfl (by norm_num) le_rfl

/-! ### C2 -/

/-- C2: once the elapsed time of a `GotoView{target, duration}`
animation reaches or exceeds `duration`, the goto tick publishes exactly
the target view (assigned directly, not interpolated) and clears the
goto sub-state, returning the engine to continuous integration. -/
theorem C2_goto_exact (g : GotoAnimation) (now : ℝ)
    (h : g.duration ≤ now - g.start_time) :
    (gotoTick g now).1 = g.target_view ∧ (gotoTick g now).2 = none := by
  unfold gotoTick
  rw [if_pos h]
  exact ⟨rfl, rfl⟩

/-- Witness for C2: a goto animation of duration 3 started at time 0,
queried at time 3. -/
theorem C2_goto_exact_witness :
    (gotoTick ⟨View.default, ⟨⟨5, 6⟩, 2⟩, 0, 3⟩ 3).1 = ⟨⟨5, 6⟩, 2⟩ ∧
    (gotoTick ⟨View.default, ⟨⟨5, 6⟩, 2⟩, 0, 3⟩ 3).2 = none :=
  C2_goto_exact ⟨View.default, ⟨⟨5, 6⟩, 2⟩, 0, 3⟩ 3 (by norm_num)

/-! ### C4 -/

/-- The default `MainView` state: default view and settings restricted
to the spec's concrete scenario (no scale bounds, no pan-speed clamp,
`key_pan_speed = 400`, `mouse_pan_multiplier = 1`). -/
def scenarioState : MainViewModel :=
  { view := View.default
    initial_view := View.default
    mouse_pos := none
    settings := noBounds
    anim := AnimHandler.defaults }

/-- C4: from `View{center:(0,0), scale:1}` with `key_pan_speed = 400`,
no scale bounds, no drag and no impulses, holding pan-right (axis value
`1.0` scaled by `key_pan_speed` in `AnimHandlerThread::pan_const`) sets
the constant pan vector to `(400, 0)`, and one tick of
`AnimHandler::update` with `dt = 0.005` yields `center = (2, 0)` with
the scale unchanged at `1`. -/
theorem C4_concrete_pan :
    ((scenarioState.pan_const (some 1) none).anim).view_pan_const = ⟨400, 0⟩ ∧
    (((scenarioState.pan_const (some 1) none).update_cell 0.005).view).center = ⟨2, 0⟩ ∧
    (((scenarioState.pan_const (some 1) none).update_cell 0.005).view).scale = 1 := by
  refine ⟨?_, ?_, ?_⟩
  · simp [scenarioState, MainViewModel.pan_const, AnimHandler.pan_const,
      AnimHandler.defaults, noBounds]
    norm_num
  · simp [scenarioState, MainViewModel.pan_const, MainViewModel.update_cell,
      AnimHandler.pan_const, AnimHandler.update, AnimHandler.defaults, noBounds,
      View.default]
    norm_num
  · simp [scenarioState, MainViewModel.pan_const, MainViewModel.update_cell,
      AnimHandler.pan_const, AnimHandler.update, AnimHandler.defaults, noBounds,
      View.default]

/-! ### C5 -/

/-- C5: a wheel zoom with raw delta `dz` at scale `s` adds
`dz * max(log2 s, 1)` to the zoom velocity; at scale `1` a delta of `1`
adds exactly `1`, and a following tick with `dt = 0.1` and no binding
bounds updates the scale to `1.1`. -/
theorem C5_wheel_zoom :
    (∀ (st : AnimHandler) (sc dz : ℝ),
        ((st.zoom_delta sc dz).view_scale_delta)
          = st.view_scale_delta + dz * max (Real.logb 2 sc) 1) ∧
    (AnimHandler.defaults.zoom_delta 1 1).view_scale_delta = 1 ∧
    (((AnimHandler.defaults.zoom_delta 1 1).update noBounds
        View.default none 0.1).2).scale = 1.1 := by
  refine ⟨fun st sc dz => rfl, ?_, ?_⟩
  · simp [AnimHandler.zoom_delta, AnimHandler.defaults, Real.logb_one]
  · simp [AnimHandler.zoom_delta, AnimHandler.update, AnimHandler.defaults,
      noBounds, View.default, Real.logb_one]
    norm_num [max_def]

/-! ### C6 -/

/-- C6 counterexample: `MainView::set_view_center` is a public operation
other than the engine tick, yet it changes the shared view cell — so
the cell is not written exclusively by the engine. -/
theorem C6_counterexample :
    (scenarioState.set_view_center ⟨1, 0⟩).view ≠ scenarioState.view := by
  intro h
  have hx := congrArg (fun v => v.center.x) h
  simp [MainViewModel.set_view_center, scenarioState, View.default] at hx

/-- C6 amended: besides the engine tick, exactly the operations
`set_view_center`, `set_view_scale` and `reset_view` write the shared
view cell; the remaining public operations (`set_initial_view`,
`set_mouse_pos`, `set_mouse_pan`, `pan_const`, `pan_delta`,
`zoom_delta`) never change it. -/
theorem C6_amended (m : MainViewModel) (c : Point) (k : ℝ)
    (co : Option Point) (so : Option ℝ) (p o : Option Point)
    (dx dy : Option ℝ) (v : Point) (dz : ℝ) :
    (m.set_initial_view co so).view = m.view ∧
    (m.set_mouse_pos p).view = m.view ∧
    (m.set_mouse_pan o).view = m.view ∧
    (m.pan_const dx dy).view = m.view ∧
    (m.pan_delta v).view = m.view ∧
    (m.zoom_delta dz).view = m.view ∧
    (m.set_view_center c).view = ⟨c, m.view.scale⟩ ∧
    (m.set_view_scale k).view = ⟨m.view.center, k⟩ ∧
    m.reset_view.view = m.initial_view :=
  ⟨rfl, rfl, rfl, rfl, rfl, rfl, rfl, rfl, rfl⟩

/-! ### C7 -/

/-- A handler that is panning at constant speed `(400, 0)`, as after a
held pan-right key. -/
def panningState : AnimHandler :=
  { mouse_pan_screen_origin := none
    view_anim_target := none
    view_pan_const := ⟨400, 0⟩
    view_pan_delta := ⟨0, 0⟩
    view_scale_delta := 0 }

/-- C7: the integrator applies the raw `dt` with no ceiling — from
`center = (0,0)`, `scale = 1`, constant pan `(400, 0)`, the published
center is `400 * dt` for every `dt`, growing without bound; at
`dt = 100` (a stalled process) the center jumps to `(40000, 0)`. -/
theorem C7_no_dt_clamp :
    (∀ dt : ℝ,
        ((panningState.update noBounds View.default none dt).2).center.x = 400 * dt) ∧
    ((panningState.update noBounds View.default none 100).2).center.x = 40000 := by
  have h : ∀ dt : ℝ,
      ((panningState.update noBounds View.default none dt).2).center.x = 400 * dt := by
    intro dt
    simp [AnimHandler.update, panningState, noBounds, View.default]
  exact ⟨h, by rw [h 100]; norm_num⟩

/-! ### C8 -/

/-- `MainView::reset_view` only copies `initial_view` into `view`, so
applying it twice equals applying it once. -/
theorem reset_view_idem (m : MainViewModel) :
    m.reset_view.reset_view = m.reset_view := rfl

/-- Iterating `MainView::reset_view` at least once equals a single
application. -/
theorem reset_view_iterate (n : ℕ) (hn : 1 ≤ n) (m : MainViewModel) :
    MainViewModel.reset_view^[n] m = m.reset_view := by
  induction n with
  | zero => exact absurd hn (by norm_num)
  | succ k ih =>
    rcases Nat.eq_or_lt_of_le hn with h1 | h2
    · rw [← h1, Function.iterate_one]
    · rw [Function.iterate_succ_apply', ih (Nat.lt_succ_iff.mp h2)]
      exact reset_view_idem m

/-- C8: calling `reset_view` N times in a row (N >= 1) with no tick in
between leaves the live view equal to a single `reset_view`, and after
`set_initial_view(center?, scale?)` that value is the initial view with
each provided field overwritten and each omitted field kept. -/
theorem C8_reset_idempotent (m : MainViewModel) (c : Option Point)
    (sc : Option ℝ) (n : ℕ) (hn : 1 ≤ n) :
    (MainViewModel.reset_view^[n] m).view = m.reset_view.view ∧
    (MainViewModel.reset_view^[n] (m.set_initial_view c sc)).view
      = ⟨c.getD m.initial_view.center, sc.getD m.initial_view.scale⟩ := by
  rw [reset_view_iterate n hn m, reset_view_iterate n hn (m.set_initial_view c sc)]
  exact ⟨rfl, rfl⟩

/-- Witness for C8 at `n = 3`, overwriting only the center. -/
theorem C8_reset_idempotent_witness :
    (MainViewModel.reset_view^[3] scenarioState).view = scenarioState.reset_view.view ∧
    (MainViewModel.reset_view^[3]
        (scenarioState.set_initial_view (some ⟨3, 4⟩) none)).view
      = ⟨(some (Point.mk 3 4)).getD scenarioState.initial_view.center,
         (none : Option ℝ).getD scenarioState.initial_view.scale⟩ :=
  C8_reset_idempotent scenarioState (some ⟨3, 4⟩) none 3 (by norm_num)

/-! ### C9 -/

/-- Settings whose pan-speed clamp is `max_speed = 1`, exposing the
per-command clamping of `AnimHandler::pan_delta`. -/
def clampedSettings : AnimSettings :=
  { min_view_scale := none
    max_view_scale := none
    max_speed := some 1
    key_pan_speed := 400.0
    mouse_pan_mult := 1.0
    wheel_zoom_base_speed := 0.45 }

/-- C9 counterexample: with `max_speed = 1` and impulses `(2,0)` then
`(-2,0)` from rest, the two orders give pan velocities `(-1,0)` and
`(1,0)` — the clamp is applied after each impulse, so accumulation is
not order-independent. -/
theorem C9_counterexample :
    ((AnimHandler.defaults.pan_delta clampedSettings ⟨2, 0⟩).pan_delta
        clampedSettings ⟨-2, 0⟩).view_pan_delta
      ≠ ((AnimHandler.defaults.pan_delta clampedSettings ⟨-2, 0⟩).pan_delta
        clampedSettings ⟨2, 0⟩).view_pan_delta := by
  intro h
  have hx := congrArg (fun p => p.x) h
  norm_num [AnimHandler.pan_delta, AnimHandler.defaults, clampedSettings] at hx

/-- C9 amended: when no `max_speed` clamp is configured, consecutive
`AddPanImpulse(v1)`, `AddPanImpulse(v2)` commands fold additively and
order-independently into the pan impulse velocity; with a configured
clamp (applied after each impulse) the result is order-dependent. -/
theorem C9_amended (settings : AnimSettings) (s : AnimHandler) (v1 v2 : Point)
    (h : settings.max_speed = none) :
    (s.pan_delta settings v1).pan_delta settings v2
      = (s.pan_delta settings v2).pan_delta settings v1 ∧
    ((s.pan_delta settings v1).pan_delta settings v2).view_pan_delta
      = s.view_pan_delta + (v1 + v2) := by
  simp only [AnimHandler.pan_delta, h]
  constructor
  · congr 1
    ext <;> simp [Point.add_def] <;> ring
  · ext <;> simp [Point.add_def] <;> ring

/-- Witness for C9 with unclamped settings and impulses `(1,2)`,
`(3,4)`. -/
theorem C9_amended_witness :
    (AnimHandler.defaults.pan_delta noBounds ⟨1, 2⟩).pan_delta noBounds ⟨3, 4⟩
      = (AnimHandler.defaults.pan_delta noBounds ⟨3, 4⟩).pan_delta noBounds ⟨1, 2⟩ ∧
    ((AnimHandler.defaults.pan_delta noBounds ⟨1, 2⟩).pan_delta
        noBounds ⟨3, 4⟩).view_pan_delta
      = AnimHandler.defaults.view_pan_delta + (Point.mk 1 2 + Point.mk 3 4) :=
  C9_amended noBounds AnimHandler.defaults ⟨1, 2⟩ ⟨3, 4⟩ rfl

/-! ### C10 -/

/-- C10: in `AnimHandler::pan_const`, an axis passed `Some(0.0)` (a
released pan key) first copies the previous constant-pan speed of that
axis into the decaying impulse velocity `view_pan_delta`, so panning
eases out under friction; an axis passed `None` leaves that component of
the constant pan unchanged; and afterwards each `Some` axis of the
constant pan equals the given value. -/
theorem C10_pan_const (s : AnimHandler) (dx dy : Option ℝ) :
    ((dx = some 0 → (s.pan_const dx dy).view_pan_delta.x = s.view_pan_const.x) ∧
     (dy = some 0 → (s.pan_const dx dy).view_pan_delta.y = s.view_pan_const.y)) ∧
    ((dx = none → (s.pan_const dx dy).view_pan_const.x = s.view_pan_const.x) ∧
     (dy = none → (s.pan_const dx dy).view_pan_const.y = s.view_pan_const.y)) ∧
    (∀ v : ℝ, dx = some v → (s.pan_const dx dy).view_pan_const.x = v) ∧
    (∀ v : ℝ, dy = some v → (s.pan_const dx dy).view_pan_const.y = v) := by
  refine ⟨⟨?_, ?_⟩, ⟨?_, ?_⟩, ?_, ?_⟩
  · intro h
    subst h
    simp only [AnimHandler.pan_const, if_pos rfl]
    split_ifs <;> rfl
  · intro h
    subst h
    simp only [AnimHandler.pan_const]
    split_ifs with h1 h2 <;> first | rfl | exact absurd trivial h1
  · intro h
    simp [AnimHandler.pan_const, h]
  · intro h
    simp [AnimHandler.pan_const, h]
  · intro v h
    simp [AnimHandler.pan_const, h]
  · intro v h
    simp [AnimHandler.pan_const, h]

/-- Witness for C10: releasing the x pan key (`dx = Some 0`,
`dy = None`) on a handler whose constant pan is `(7, 8)`. -/
theorem C10_pan_const_witness :
    ((AnimHandler.mk none none ⟨7, 8⟩ ⟨0, 0⟩ 0).pan_const (some 0) none).view_pan_delta.x
      = (AnimHandler.mk none none ⟨7, 8⟩ ⟨0, 0⟩ 0).view_pan_const.x ∧
    ((AnimHandler.mk none none ⟨7, 8⟩ ⟨0, 0⟩ 0).pan_const (some 0) none).view_pan_const.y
      = (AnimHandler.mk none none ⟨7, 8⟩ ⟨0, 0⟩ 0).view_pan_const.y ∧
    ((AnimHandler.mk none none ⟨7, 8⟩ ⟨0, 0⟩ 0).pan_const (some 0) none).view_pan_const.x
      = 0 :=
  ⟨(C10_pan_const (AnimHandler.mk none none ⟨7, 8⟩ ⟨0, 0⟩ 0) (some 0) none).1.1 rfl,
   (C10_pan_const (AnimHandler.mk none none ⟨7, 8⟩ ⟨0, 0⟩ 0) (some 0) none).2.1.2 rfl,
   (C10_pan_const (AnimHandler.mk none none ⟨7, 8⟩ ⟨0, 0⟩ 0) (some 0) none).2.2.1 0 rfl⟩

/-! ### C3 -/

theorem abs_mul_frictionCoeff_le {dt : ℝ} (v : ℝ) (h : 0 < dt) :
    |v * frictionCoeff dt| ≤ |v| := by
  rw [abs_mul, abs_of_nonneg (frictionCoeff_nonneg h)]
  exact mul_le_of_le_one_right (abs_nonneg v) (le_of_lt (frictionCoeff_lt_one h))

theorem abs_mul_frictionCoeff_le_nine {dt : ℝ} (v : ℝ) (h : 0 < dt) :
    |v * frictionCoeff dt| ≤ 9 / 10 * |v| := by
  rw [abs_mul, abs_of_nonneg (frictionCoeff_nonneg h), mul_comm]
  exact mul_le_mul_of_nonneg_right (le_of_lt (frictionCoeff_lt h)) (abs_nonneg v)

/-- The snap-to-zero of the zoom velocity never increases its
magnitude. -/
theorem abs_snap_le (w : ℝ) :
    |if |w| < (0.00001 : ℝ) then (0 : ℝ) else w| ≤ |w| := by
  split_ifs
  · simpa using abs_nonneg w
  · exact le_refl _

/-- C3 amended: with no new impulse commands, across consecutive ticks
with positive dt the magnitudes of the pan impulse velocity components
(`view_pan_delta`) and of the zoom velocity (`view_scale_delta`) are
non-increasing; the pan impulse velocity decays geometrically (a factor
below 9/10 per tick); and the zoom velocity — which alone is snapped to
exactly 0 below the 1e-5 threshold — becomes exactly 0 within a bounded
number of ticks and stays 0.  (The pan impulse velocity has no snap
threshold and in exact arithmetic never reaches exactly 0 from a
nonzero start; see the counterexample.) -/
theorem C3_decay (settings : AnimSettings) (mps : ℕ → Option Point)
    (dts : ℕ → ℝ) (init : AnimHandler × View) (hdt : ∀ n, 0 < dts n) :
    (∀ n,
      |((runTicks settings mps dts init (n + 1)).1).view_pan_delta.x|
          ≤ |((runTicks settings mps dts init n).1).view_pan_delta.x| ∧
      |((runTicks settings mps dts init (n + 1)).1).view_pan_delta.y|
          ≤ |((runTicks settings mps dts init n).1).view_pan_delta.y| ∧
      |((runTicks settings mps dts init (n + 1)).1).view_scale_delta|
          ≤ |((runTicks settings mps dts init n).1).view_scale_delta|) ∧
    (∀ n,
      |((runTicks settings mps dts init n).1).view_pan_delta.x|
          ≤ (9 / 10) ^ n * |(init.1).view_pan_delta.x| ∧
      |((runTicks settings mps dts init n).1).view_pan_delta.y|
          ≤ (9 / 10) ^ n * |(init.1).view_pan_delta.y|) ∧
    (∃ N, ∀ n, N ≤ n → ((runTicks settings mps dts init n).1).view_scale_delta = 0) := by
  have hp : ∀ n, ((runTicks settings mps dts init (n + 1)).1).view_pan_delta
      = ((runTicks settings mps dts init n).1).view_pan_delta.smul
          (frictionCoeff (dts n)) := fun n => rfl
  have hz : ∀ n, ((runTicks settings mps dts init (n + 1)).1).view_scale_delta
      = if |((runTicks settings mps dts init n).1).view_scale_delta
              * frictionCoeff (dts n)| < 0.00001 then 0
        else ((runTicks settings mps dts init n).1).view_scale_delta
              * frictionCoeff (dts n) := fun n => rfl
  -- geometric decay of the zoom velocity
  have hzb : ∀ n, |((runTicks settings mps dts init n).1).view_scale_delta|
      ≤ (9 / 10) ^ n * |(init.1).view_scale_delta| := by
    intro n
    induction n with
    | zero => simp [runTicks]
    | succ k ih =>
      rw [hz k, pow_succ]
      calc |if |((runTicks settings mps dts init k).1).view_scale_delta
                * frictionCoeff (dts k)| < 0.00001 then (0 : ℝ)
            else ((runTicks settings mps dts init k).1).view_scale_delta
                * frictionCoeff (dts k)|
          ≤ |((runTicks settings mps dts init k).1).view_scale_delta
                * frictionCoeff (dts k)| := abs_snap_le _
        _ ≤ 9 / 10 * |((runTicks settings mps dts init k).1).view_scale_delta| :=
            abs_mul_frictionCoeff_le_nine _ (hdt k)
        _ ≤ 9 / 10 * ((9 / 10) ^ k * |(init.1).view_scale_delta|) := by
            linarith
        _ = (9 / 10) ^ k * (9 / 10) * |(init.1).view_scale_delta| := by ring
  refine ⟨?_, ?_, ?_⟩
  · intro n
    refine ⟨?_, ?_, ?_⟩
    · rw [hp n]
      exact abs_mul_frictionCoeff_le _ (hdt n)
    · rw [hp n]
      exact abs_mul_frictionCoeff_le _ (hdt n)
    · rw [hz n]
      exact le_trans (abs_snap_le _) (abs_mul_frictionCoeff_le _ (hdt n))
  · intro n
    induction n with
    | zero => simp [runTicks]
    | succ k ih =>
      have hx := ih.1
      have hy := ih.2
      constructor
      · rw [hp k, pow_succ]
        calc |(((runTicks settings mps dts init k).1).view_pan_delta.smul
                (frictionCoeff (dts k))).x|
            = |((runTicks settings mps dts init k).1).view_pan_delta.x
                * frictionCoeff (dts k)| := rfl
          _ ≤ 9 / 10 * |((runTicks settings mps dts init k).1).view_pan_delta.x| :=
              abs_mul_frictionCoeff_le_nine _ (hdt k)
          _ ≤ 9 / 10 * ((9 / 10) ^ k * |(init.1).view_pan_delta.x|) := by linarith
          _ = (9 / 10) ^ k * (9 / 10) * |(init.1).view_pan_delta.x| := by ring
      · rw [hp k, pow_succ]
        calc |(((runTicks settings mps dts init k).1).view_pan_delta.smul
                (frictionCoeff (dts k))).y|
            = |((runTicks settings mps dts init k).1).view_pan_delta.y
                * frictionCoeff (dts k)| := rfl
          _ ≤ 9 / 10 * |((runTicks settings mps dts init k).1).view_pan_delta.y| :=
              abs_mul_frictionCoeff_le_nine _ (hdt k)
          _ ≤ 9 / 10 * ((9 / 10) ^ k * |(init.1).view_pan_delta.y|) := by linarith
          _ = (9 / 10) ^ k * (9 / 10) * |(init.1).view_pan_delta.y| := by ring
  · have hpos : (0 : ℝ) < 0.00001 / (|(init.1).view_scale_delta| + 1) := by
      apply div_pos (by norm_num)
      have := abs_nonneg ((init.1).view_scale_delta)
      linarith
    obtain ⟨N, hN⟩ := exists_pow_lt_of_lt_one hpos (by norm_num : (9 / 10 : ℝ) < 1)
    refine ⟨N + 1, ?_⟩
    intro n hn
    obtain ⟨k, rfl⟩ := Nat.exists_eq_add_of_le hn
    have hEq : N + 1 + k = (N + k) + 1 := by omega
    rw [hEq, hz (N + k)]
    apply if_pos
    have habs : |((runTicks settings mps dts init (N + k)).1).view_scale_delta
        * frictionCoeff (dts (N + k))|
        ≤ |((runTicks settings mps dts init (N + k)).1).view_scale_delta| :=
      abs_mul_frictionCoeff_le _ (hdt (N + k))
    have hb := hzb (N + k)
    have hpow : ((9 : ℝ) / 10) ^ (N + k) ≤ (9 / 10) ^ N :=
      pow_le_pow_of_le_one (by norm_num) (by norm_num) (Nat.le_add_right N k)
    have habs0 : (0 : ℝ) ≤ |(init.1).view_scale_delta| := abs_nonneg _
    have h1 : ((9 : ℝ) / 10) ^ (N + k) * |(init.1).view_scale_delta|
        ≤ (9 / 10) ^ N * (|(init.1).view_scale_delta| + 1) := by
      have := mul_le_mul_of_nonneg_right hpow habs0
      have hN0 : (0 : ℝ) ≤ (9 / 10 : ℝ) ^ N := by positivity
      nlinarith
    have h2 : ((9 : ℝ) / 10) ^ N * (|(init.1).view_scale_delta| + 1)
        < 0.00001 / (|(init.1).view_scale_delta| + 1)
            * (|(init.1).view_scale_delta| + 1) := by
      apply mul_lt_mul_of_pos_right hN
      linarith
    have h3 : (0.00001 : ℝ) / (|(init.1).view_scale_delta| + 1)
        * (|(init.1).view_scale_delta| + 1) = 0.00001 := by
      field_simp
    linarith

/-- Witness for C3 (amended): one tick with `dt = 1` from the default
state does not increase the zoom-velocity magnitude. -/
theorem C3_decay_witness :
    |((runTicks noBounds (fun _ => none) (fun _ => 1)
        (AnimHandler.defaults, View.default) 1).1).view_scale_delta|
      ≤ |((runTicks noBounds (fun _ => none) (fun _ => 1)
        (AnimHandler.defaults, View.default) 0).1).view_scale_delta| :=
  ((C3_decay noBounds (fun _ => none) (fun _ => 1)
      (AnimHandler.defaults, View.default) (fun _ => one_pos)).1 0).2.2

/-- A handler whose only nonzero quantity is a pan impulse velocity of
`(1, 0)`. -/
def panOnly : AnimHandler :=
  { mouse_pan_screen_origin := none
    view_anim_target := none
    view_pan_const := ⟨0, 0⟩
    view_pan_delta := ⟨1, 0⟩
    view_scale_delta := 0 }

/-- Engine ticks every `dt = 1/2` from `panOnly`, with no commands and
no mouse position. -/
noncomputable def halfTickRun : ℕ → AnimHandler × View :=
  runTicks noBounds (fun _ => none) (fun _ => (1 : ℝ) / 2) (panOnly, View.default)

/-- C3 counterexample: starting from pan impulse velocity `(1, 0)` and
ticking with `dt = 1/2` forever, the pan impulse velocity never becomes
exactly `0` — there is no bounded number of ticks after which it is
`0.0`, because `view_pan_delta` is only multiplied by the (positive)
friction factor and, unlike `view_scale_delta`, is never snapped. -/
theorem C3_counterexample :
    ¬ ∃ N, ∀ n, N ≤ n → ((halfTickRun n).1).view_pan_delta.x = 0 := by
  have hc : 0 < frictionCoeff (1 / 2) := by
    unfold frictionCoeff
    rw [if_neg (by norm_num)]
    have h1 : (10 : ℝ) ^ ((1 : ℝ) / 2 - 1) < 1 :=
      Real.rpow_lt_one_of_one_lt_of_neg (by norm_num) (by norm_num)
    linarith
  have hform : ∀ n, ((halfTickRun n).1).view_pan_delta.x
      = (frictionCoeff (1 / 2)) ^ n := by
    intro n
    induction n with
    | zero => simp [halfTickRun, runTicks, panOnly]
    | succ k ih =>
      have hstep : ((halfTickRun (k + 1)).1).view_pan_delta
          = ((halfTickRun k).1).view_pan_delta.smul (frictionCoeff (1 / 2)) := rfl
      rw [hstep]
      simp only [Point.smul_def]
      rw [ih, pow_succ]
  rintro ⟨N, hN⟩
  have h0 := hN N le_rfl
  rw [hform N] at h0
  exact (pow_pos hc N).ne' h0

end Gfaestus
